import Mathlib

/-!
Shallow embedding of the `aws-emr-launch` repository
(`src/aws_emr_launch/constructs/emr_constructs/emr_code.py` and
`src/aws_emr_launch/constructs/lambdas/emr_utilities.py`) together with
proofs of the behavioural claims about it.

Python objects are modelled as Lean structures; the single mutable
attribute in the code base (`EmrCode._bucket_deployment`) is threaded
explicitly: `bind_scope` returns the updated object together with the
list of cloud resources it materialised during the call.

Note on identifiers: the Python attribute `_deployment_prefix` (and the
props field `destination_key_prefix`) are rendered here as
`deployment_pref` / `destination_key_pref`.
-/

/-- A scope in the construct tree (`aws_cdk.core.Construct`), identified
by its path.  The repository treats scopes as opaque handles. -/
structure Construct where
  path : String
  deriving DecidableEq

/-- An S3 bucket (`aws_s3.Bucket`); only `bucket_name` is read by the
repository. -/
structure Bucket where
  bucket_name : String
  deriving DecidableEq

/-- A deployment source (`aws_s3_deployment.Source.asset(path)`). -/
structure Source where
  asset_path : String
  deriving DecidableEq

/-- `aws_s3_deployment.BucketDeploymentProps`: the fields the repository
constructs and reads (`sources`, `destination_bucket`,
`destination_key_prefix`). -/
structure BucketDeploymentProps where
  sources : List Source
  destination_bucket : Bucket
  destination_key_pref : String
  deriving DecidableEq

/-- A materialised `aws_s3_deployment.BucketDeployment` resource: the
scope and construct id it was created under, plus the spread-out
deployment props (`**deployment_props`). -/
structure BucketDeployment where
  scope : Construct
  construct_id : String
  sources : List Source
  destination_bucket : Bucket
  destination_key_pref : String
  deriving DecidableEq

/-- Python values as they appear in the mappings returned by
`bind_scope`: `None`, strings, lists and string-keyed dicts. -/
inductive PyVal where
  | none : PyVal
  | str : String → PyVal
  | list : List PyVal → PyVal
  | dict : List (String × PyVal) → PyVal

/-- `enum.Enum` class `StepFailureAction` from `emr_code.py`. -/
inductive StepFailureAction where
  | TERMINATE_JOB_FLOW
  | TERMINATE_CLUSTER
  | CANCEL_AND_WAIT
  | CONTINUE
  deriving DecidableEq

/-- Python `Enum.name`: the identifier of the member. -/
def StepFailureAction.name : StepFailureAction → String
  | .TERMINATE_JOB_FLOW => "TERMINATE_JOB_FLOW"
  | .TERMINATE_CLUSTER => "TERMINATE_CLUSTER"
  | .CANCEL_AND_WAIT => "CANCEL_AND_WAIT"
  | .CONTINUE => "CONTINUE"

/-- Python `Enum.value`: the string each member is declared equal to in
`emr_code.py` (`TERMINATE_JOB_FLOW = 'TERMINATE_JOB_FLOW'`, ...). -/
def StepFailureAction.value : StepFailureAction → String
  | .TERMINATE_JOB_FLOW => "TERMINATE_JOB_FLOW"
  | .TERMINATE_CLUSTER => "TERMINATE_CLUSTER"
  | .CANCEL_AND_WAIT => "CANCEL_AND_WAIT"
  | .CONTINUE => "CONTINUE"

/-- Python truthiness of an optional list: `xs if xs else []` yields the
list when it is non-`None` and non-empty, and `[]` otherwise. -/
def pyListOrEmpty (o : Option (List α)) : List α :=
  match o with
  | some xs => if xs.isEmpty then [] else xs
  | Option.none => []

/-- An optional string rendered as a Python dict value (`None` stays
`None`). -/
def pyOptStr : Option String → PyVal
  | some s => PyVal.str s
  | Option.none => PyVal.none

/-- State of an `EmrCode` instance.  `bucket_deployment` is the mutable
`_bucket_deployment` attribute (`None` until the first `bind_scope`). -/
structure EmrCode where
  deployment_props : BucketDeploymentProps
  deployment_bucket : Bucket
  deployment_pref : String
  id : Option String
  bucket_deployment : Option BucketDeployment

/-- `EmrCode.__init__`: copies the bucket and key-prefix out of the
props and leaves `_bucket_deployment` unset. -/
def EmrCode.init (deployment_props : BucketDeploymentProps) (id : Option String) : EmrCode :=
  { deployment_props := deployment_props
    deployment_bucket := deployment_props.destination_bucket
    deployment_pref := deployment_props.destination_key_pref
    id := id
    bucket_deployment := Option.none }

/-- `Code.from_path`: builds props from a local path, bucket and key
prefix, then constructs an `EmrCode`. -/
def Code.from_path (path : String) (deployment_bucket : Bucket) (deployment_pref : String) : EmrCode :=
  EmrCode.init
    { sources := [{ asset_path := path }]
      destination_bucket := deployment_bucket
      destination_key_pref := deployment_pref }
    Option.none

/-- `Code.from_props`: constructs an `EmrCode` directly from props. -/
def Code.from_props (deployment_props : BucketDeploymentProps) : EmrCode :=
  EmrCode.init deployment_props Option.none

/-- `EmrCode.s3_path` property:
`f's3://{self._deployment_bucket.bucket_name}/{self._deployment_prefix}'`. -/
def EmrCode.s3_path (c : EmrCode) : String :=
  "s3://" ++ c.deployment_bucket.bucket_name ++ "/" ++ c.deployment_pref

/-- Result of a call to `EmrCode.bind_scope`: the returned mapping, the
instance state after the call, and the resources materialised by the
call. -/
structure CodeBindResult where
  result : PyVal
  self : EmrCode
  created : List BucketDeployment

/-- `EmrCode.bind_scope`: materialises the `BucketDeployment` on the
first call only (retaining it in `_bucket_deployment`), then returns
`{'S3Path': self.s3_path}`.  The construct id is
`f'BucketDeployment_{self._id}' if self._id else 'BucketDeployment'`
(Python truthiness: an empty-string id also falls back). -/
def EmrCode.bind_scope (c : EmrCode) (scope : Construct) : CodeBindResult :=
  match c.bucket_deployment with
  | Option.none =>
      let dep : BucketDeployment :=
        { scope := scope
          construct_id :=
            match c.id with
            | some i => if i.isEmpty then "BucketDeployment" else "BucketDeployment_" ++ i
            | Option.none => "BucketDeployment"
          sources := c.deployment_props.sources
          destination_bucket := c.deployment_props.destination_bucket
          destination_key_pref := c.deployment_props.destination_key_pref }
      { result := PyVal.dict [("S3Path", PyVal.str c.s3_path)]
        self := { c with bucket_deployment := some dep }
        created := [dep] }
  | some _ =>
      { result := PyVal.dict [("S3Path", PyVal.str c.s3_path)]
        self := c
        created := [] }

/-- Runs `bind_scope` once per scope in the list, threading the instance
state and returning the final state together with the total number of
`BucketDeployment` resources created over the whole sequence. -/
def EmrCode.bindAll : EmrCode → List Construct → EmrCode × Nat
  | c, [] => (c, 0)
  | c, s :: rest =>
      let r := EmrCode.bind_scope c s
      let q := EmrCode.bindAll r.self rest
      (q.1, r.created.length + q.2)

/-- The per-instance configuration of an `EmrCode`: every attribute
except the `_bucket_deployment` memo cell. -/
def EmrCode.value_fields (c : EmrCode) : BucketDeploymentProps × Bucket × String × Option String :=
  (c.deployment_props, c.deployment_bucket, c.deployment_pref, c.id)

/-- State of an `EmrBootstrapAction` instance (all attributes are set in
`__init__` and never reassigned). -/
structure EmrBootstrapAction where
  name : String
  path : String
  args : Option (List String)
  code : Option EmrCode

/-- Result of `EmrBootstrapAction.bind_scope`. -/
structure ActionBindResult where
  result : PyVal
  self : EmrBootstrapAction
  created : List BucketDeployment

/-- `EmrBootstrapAction.bind_scope`: first binds the optional code
deployment, then returns the `ScriptBootstrapAction` mapping. -/
def EmrBootstrapAction.bind_scope (a : EmrBootstrapAction) (scope : Construct) : ActionBindResult :=
  let afterCode : Option EmrCode × List BucketDeployment :=
    match a.code with
    | some c =>
        let r := EmrCode.bind_scope c scope
        (some r.self, r.created)
    | Option.none => (Option.none, [])
  { result :=
      PyVal.dict
        [("Name", PyVal.str a.name),
         ("ScriptBootstrapAction",
          PyVal.dict
            [("Path", PyVal.str a.path),
             ("Args", PyVal.list ((pyListOrEmpty a.args).map PyVal.str))])]
    self := { a with code := afterCode.1 }
    created := afterCode.2 }

/-- State of an `EmrStep` instance (all attributes are set in `__init__`
and never reassigned). -/
structure EmrStep where
  name : String
  jar : String
  main_class : Option String
  args : Option (List String)
  action_on_failure : StepFailureAction
  properties : Option (List PyVal)
  code : Option EmrCode

/-- The default of the `action_on_failure` parameter in
`EmrStep.__init__`. -/
def EmrStep.default_action_on_failure : StepFailureAction :=
  StepFailureAction.CONTINUE

/-- Result of `EmrStep.bind_scope`. -/
structure StepBindResult where
  result : PyVal
  self : EmrStep
  created : List BucketDeployment

/-- `EmrStep.bind_scope`: first binds the optional code deployment, then
returns the `HadoopJarStep` mapping; `ActionOnFailure` is the enum
member's `.name`. -/
def EmrStep.bind_scope (st : EmrStep) (scope : Construct) : StepBindResult :=
  let afterCode : Option EmrCode × List BucketDeployment :=
    match st.code with
    | some c =>
        let r := EmrCode.bind_scope c scope
        (some r.self, r.created)
    | Option.none => (Option.none, [])
  { result :=
      PyVal.dict
        [("Name", PyVal.str st.name),
         ("ActionOnFailure", PyVal.str st.action_on_failure.name),
         ("HadoopJarStep",
          PyVal.dict
            [("Jar", PyVal.str st.jar),
             ("MainClass", pyOptStr st.main_class),
             ("Args", PyVal.list ((pyListOrEmpty st.args).map PyVal.str)),
             ("Properties", PyVal.list (pyListOrEmpty st.properties))])]
    self := { st with code := afterCode.1 }
    created := afterCode.2 }

/-- First value stored under a key in an association list (the model of
Python dict lookup; the dicts built by this code base have unique keys). -/
def alist_get : List (String × α) → String → Option α
  | [], _ => Option.none
  | (k', v) :: rest, k => if k' = k then some v else alist_get rest k

/-- Entry of a `PyVal.dict` under a key. -/
def PyVal.getKey : PyVal → String → Option PyVal
  | PyVal.dict kvs, k => alist_get kvs k
  | _, _ => Option.none

/-! ### Embedding of `constructs/lambdas/emr_utilities.py` -/

/-- An environment dictionary: an association list with unique keys, in
insertion order (the model of a Python `dict` of strings). -/
abbrev PyDict := List (String × String)

/-- Python `d[k] = v`: replaces the value at an existing key in place,
or appends the new binding. -/
def PyDict.set : PyDict → String → String → PyDict
  | [], k, v => [(k, v)]
  | (k', v') :: rest, k, v =>
      if k' = k then (k, v) :: rest else (k', v') :: PyDict.set rest k v

/-- Python `d.get(k)` for a string dict. -/
def PyDict.get (d : PyDict) (k : String) : Option String :=
  alist_get d k

/-- Python `dict(d, **e)`: a copy of `d` updated with every binding of
`e`, in order. -/
def PyDict.merge (d e : PyDict) : PyDict :=
  e.foldl (fun acc p => PyDict.set acc p.1 p.2) d

/-- The keys of a dict, in order. -/
def PyDict.keys (d : PyDict) : List String :=
  d.map Prod.fst

/-- `iam.Effect` (only `ALLOW` is used by the repository). -/
inductive Effect where
  | ALLOW
  | DENY
  deriving DecidableEq

/-- `iam.PolicyStatement` as constructed in `emr_utilities.py`. -/
structure PolicyStatement where
  effect : Effect
  actions : List String
  resources : List String
  deriving DecidableEq

/-- `aws_lambda.Code.asset(path)`. -/
structure LambdaCode where
  asset_path : String
  deriving DecidableEq

/-- An `aws_lambda.Function` declaration: the constructor arguments
`StepFunctionLambdas.__init__` passes for its three functions. -/
structure LambdaFunction where
  scope : Construct
  construct_id : String
  code : LambdaCode
  handler : String
  runtime : String
  timeout_minutes : Nat
  initial_policy : List PolicyStatement
  deriving DecidableEq

/-- Modelled from the spec: `_lambda_path` (imported from the package
`__init__`, which is not part of this excerpt) resolves a Lambda source
directory name to its location in the repository; modelled as the
directory name itself.  No claim depends on the resolved path. -/
def lambda_path (p : String) : String :=
  p

/-- State of a `StepFunctionLambdas` construct: its three Lambda
function declarations. -/
structure StepFunctionLambdas where
  run_job_flow : LambdaFunction
  add_job_flow_steps : LambdaFunction
  check_step_status : LambdaFunction
  deriving DecidableEq

/-- `StepFunctionLambdas.__init__`: declares the three functions with
their fixed handlers, runtime, timeout and IAM policies. -/
def StepFunctionLambdas.init (scope : Construct) (_id : String) : StepFunctionLambdas :=
  let code : LambdaCode := { asset_path := lambda_path "emr_utilities" }
  { run_job_flow :=
      { scope := scope
        construct_id := "StepFunctionLambdas_AddJobFlow"
        code := code
        handler := "run_job_flow.handler"
        runtime := "python3.7"
        timeout_minutes := 5
        initial_policy :=
          [{ effect := Effect.ALLOW
             actions :=
               ["elasticmapreduce:RunJobFlow",
                "elasticmapreduce:ListClusters",
                "elasticmapreduce:ListSteps"]
             resources := ["*"] }] }
    add_job_flow_steps :=
      { scope := scope
        construct_id := "StepFunctionLambdas_AddJobFlowSteps"
        code := code
        handler := "add_job_flow_steps.handler"
        runtime := "python3.7"
        timeout_minutes := 5
        initial_policy :=
          [{ effect := Effect.ALLOW
             actions := ["elasticmapreduce:AddJobFlowSteps"]
             resources := ["*"] }] }
    check_step_status :=
      { scope := scope
        construct_id := "StepFunctionLambdas_CheckStepStatus"
        code := code
        handler := "check_step_status.handler"
        runtime := "python3.7"
        timeout_minutes := 5
        initial_policy :=
          [{ effect := Effect.ALLOW
             actions :=
               ["elasticmapreduce:DescribeCluster",
                "elasticmapreduce:DescribeStep",
                "cloudwatch:PutMetricData"]
             resources := ["*"] }] } }

/-- An `sns.Topic`; only `topic_arn` is read. -/
structure Topic where
  topic_arn : String
  deriving DecidableEq

/-- An `sfn.StateMachine`; only `state_machine_arn` is read. -/
structure StateMachine where
  state_machine_arn : String
  deriving DecidableEq

mutual

/-- Python stdlib `json.dumps` restricted to the value shapes modelled
here (default separators; string escaping is not modelled, no claim
depends on it). -/
def jsonDumps : PyVal → String
  | PyVal.none => "null"
  | PyVal.str s => "\"" ++ s ++ "\""
  | PyVal.list xs => "[" ++ jsonDumpsArr xs ++ "]"
  | PyVal.dict kvs => "\x7b" ++ jsonDumpsObj kvs ++ "\x7d"

/-- Comma-separated serialisation of a JSON array body. -/
def jsonDumpsArr : List PyVal → String
  | [] => ""
  | [x] => jsonDumps x
  | x :: y :: xs => jsonDumps x ++ ", " ++ jsonDumpsArr (y :: xs)

/-- Comma-separated serialisation of a JSON object body. -/
def jsonDumpsObj : List (String × PyVal) → String
  | [] => ""
  | [(k, v)] => "\"" ++ k ++ "\": " ++ jsonDumps v
  | (k, v) :: p :: kvs => "\"" ++ k ++ "\": " ++ jsonDumps v ++ ", " ++ jsonDumpsObj (p :: kvs)

end

/-- Python `str()` on the `Optional[int]` wait-time argument. -/
def pyStrInt : Option Int → String
  | some n => toString n
  | Option.none => "None"

/-- Python `str()` on the `Optional[bool]` fail-if-running argument. -/
def pyStrBool : Option Bool → String
  | some true => "True"
  | some false => "False"
  | Option.none => "None"

/-- The slice of `aws_lambda.FunctionProps` that
`LaunchEMRConfigLambda.__init__` reads and rewrites: the optional
`environment` entry of its `_values` dict (every other entry passes
through untouched). -/
structure FunctionProps where
  environment : Option PyDict

/-- The constructor-derived environment dict assembled by
`LaunchEMRConfigLambda.__init__`: the four base keys, then the
conditional topic-ARN insertions (`if success_topic:` /
`if failure_topic:`; topic objects are always truthy). -/
def LaunchEMRConfigLambda.environment_vars (step_function : StateMachine)
    (cluster_config : PyVal) (step_function_wait_time : Option Int)
    (fail_if_job_running : Option Bool)
    (success_topic : Option Topic) (failure_topic : Option Topic) : PyDict :=
  let environment : PyDict :=
    [("DEFAULT_STEP_FUNCTION_ARN", step_function.state_machine_arn),
     ("DEFAULT_CLUSTER_CONFIG", jsonDumps cluster_config),
     ("DEFAULT_STEP_FUNCTION_WAIT_TIME", pyStrInt step_function_wait_time),
     ("DEFAULT_FAIL_IF_JOB_RUNNING", pyStrBool fail_if_job_running)]
  let environment :=
    match success_topic with
    | some t => environment.set "DEFAULT_SUCCESS_TOPIC_ARN" t.topic_arn
    | Option.none => environment
  let environment :=
    match failure_topic with
    | some t => environment.set "DEFAULT_FAILURE_TOPIC_ARN" t.topic_arn
    | Option.none => environment
  environment

/-- The resulting `LaunchEMRConfigLambda` function declaration: the
scope and id it was created under and the final environment passed to
the `aws_lambda.Function` superclass. -/
structure LaunchEMRConfigLambda where
  scope : Construct
  construct_id : String
  environment : PyDict

/-- `LaunchEMRConfigLambda.__init__`: assembles the constructor-derived
environment and merges it over the environment found in the supplied
function props (`dict(function_props.get('environment', ...), **environment)`,
with an empty dict when the props carry no environment). -/
def LaunchEMRConfigLambda.init (scope : Construct) (id : String) (props : FunctionProps)
    (step_function : StateMachine) (cluster_config : PyVal)
    (step_function_wait_time : Option Int) (fail_if_job_running : Option Bool)
    (success_topic : Option Topic) (failure_topic : Option Topic) : LaunchEMRConfigLambda :=
  let environment :=
    LaunchEMRConfigLambda.environment_vars step_function cluster_config
      step_function_wait_time fail_if_job_running success_topic failure_topic
  { scope := scope
    construct_id := id
    environment := PyDict.merge (props.environment.getD []) environment }

/-! ### Helper lemmas -/

theorem pyListOrEmpty_eq_getD (o : Option (List α)) : pyListOrEmpty o = o.getD [] := by
  cases o with
  | none => rfl
  | some xs => cases xs <;> rfl

theorem alist_get_eq_none_of_not_mem {α : Type} (d : List (String × α)) (k : String)
    (h : k ∉ d.map Prod.fst) : alist_get d k = Option.none := by
  induction d with
  | nil => rfl
  | cons p rest ih =>
      obtain ⟨k', v⟩ := p
      simp only [List.map_cons, List.mem_cons] at h
      push_neg at h
      simp only [alist_get]
      rw [if_neg fun hk => h.1 hk.symm]
      exact ih h.2

theorem PyDict.get_set_self (d : PyDict) (k v : String) :
    (d.set k v).get k = some v := by
  induction d with
  | nil => simp [PyDict.set, PyDict.get, alist_get]
  | cons p rest ih =>
      obtain ⟨k', v'⟩ := p
      by_cases hk : k' = k
      · simp [PyDict.set, PyDict.get, alist_get, hk]
      · simpa [PyDict.set, PyDict.get, alist_get, hk] using ih

theorem PyDict.get_set_of_ne (d : PyDict) {k k' : String} (v : String) (h : k' ≠ k) :
    (d.set k v).get k' = d.get k' := by
  induction d with
  | nil => simp [PyDict.set, PyDict.get, alist_get, Ne.symm h]
  | cons p rest ih =>
      obtain ⟨k₀, v₀⟩ := p
      by_cases hk : k₀ = k
      · subst hk
        simp [PyDict.set, PyDict.get, alist_get, Ne.symm h]
      · simp only [PyDict.set, if_neg hk, PyDict.get, alist_get]
        by_cases hk' : k₀ = k'
        · simp [hk']
        · rw [if_neg hk', if_neg hk']
          exact ih

theorem PyDict.merge_get_of_none (e : PyDict) :
    ∀ (d : PyDict) (k : String), e.get k = Option.none →
      (PyDict.merge d e).get k = d.get k := by
  induction e with
  | nil => intro d k _; rfl
  | cons p rest ih =>
      intro d k h
      obtain ⟨k₁, v₁⟩ := p
      simp only [PyDict.get, alist_get] at h
      by_cases hk : k₁ = k
      · rw [if_pos hk] at h
        exact absurd h (by simp)
      · rw [if_neg hk] at h
        show (PyDict.merge (PyDict.set d k₁ v₁) rest).get k = d.get k
        rw [ih (PyDict.set d k₁ v₁) k h]
        exact PyDict.get_set_of_ne d v₁ fun hk' => hk hk'.symm

theorem PyDict.merge_get_of_some (e : PyDict) :
    ∀ (d : PyDict) (k v : String), e.keys.Nodup → e.get k = some v →
      (PyDict.merge d e).get k = some v := by
  induction e with
  | nil => intro d k v _ h; simp [PyDict.get, alist_get] at h
  | cons p rest ih =>
      intro d k v hnd h
      obtain ⟨k₁, v₁⟩ := p
      simp only [PyDict.keys, List.map_cons, List.nodup_cons] at hnd
      simp only [PyDict.get, alist_get] at h
      by_cases hk : k₁ = k
      · rw [if_pos hk] at h
        subst hk
        obtain rfl : v₁ = v := by simpa using h
        show (PyDict.merge (PyDict.set d k₁ v₁) rest).get k₁ = some v₁
        rw [PyDict.merge_get_of_none rest (PyDict.set d k₁ v₁) k₁
              (alist_get_eq_none_of_not_mem rest k₁ hnd.1)]
        exact PyDict.get_set_self d k₁ v₁
      · rw [if_neg hk] at h
        exact ih (PyDict.set d k₁ v₁) k v hnd.2 h

theorem EmrCode.bind_scope_result (c : EmrCode) (scope : Construct) :
    (c.bind_scope scope).result = PyVal.dict [("S3Path", PyVal.str c.s3_path)] := by
  cases h : c.bucket_deployment <;> simp [EmrCode.bind_scope, h]

theorem EmrCode.bind_scope_of_some (c : EmrCode) (scope : Construct) (d : BucketDeployment)
    (h : c.bucket_deployment = some d) :
    c.bind_scope scope =
      ⟨PyVal.dict [("S3Path", PyVal.str c.s3_path)], c, []⟩ := by
  simp [EmrCode.bind_scope, h]

theorem EmrCode.bind_scope_value_fields (c : EmrCode) (scope : Construct) :
    ((c.bind_scope scope).self).value_fields = c.value_fields := by
  cases h : c.bucket_deployment <;>
    simp [EmrCode.bind_scope, h, EmrCode.value_fields]

theorem EmrCode.bind_scope_s3_path (c : EmrCode) (scope : Construct) :
    ((c.bind_scope scope).self).s3_path = c.s3_path := by
  cases h : c.bucket_deployment <;>
    simp [EmrCode.bind_scope, h, EmrCode.s3_path]

theorem EmrCode.bind_scope_isSome (c : EmrCode) (scope : Construct) :
    ((c.bind_scope scope).self).bucket_deployment.isSome := by
  cases h : c.bucket_deployment <;> simp [EmrCode.bind_scope, h]

theorem EmrCode.bindAll_snd_of_isSome (scopes : List Construct) :
    ∀ c : EmrCode, c.bucket_deployment.isSome → (c.bindAll scopes).2 = 0 := by
  induction scopes with
  | nil => intro c _; rfl
  | cons s rest ih =>
      intro c h
      obtain ⟨d, hd⟩ := Option.isSome_iff_exists.mp h
      simp only [EmrCode.bindAll, EmrCode.bind_scope_of_some c s d hd]
      simpa using ih c h

theorem EmrCode.bindAll_value_fields (scopes : List Construct) :
    ∀ c : EmrCode, ((c.bindAll scopes).1).value_fields = c.value_fields := by
  induction scopes with
  | nil => intro c; rfl
  | cons s rest ih =>
      intro c
      simp only [EmrCode.bindAll]
      rw [ih]
      exact EmrCode.bind_scope_value_fields c s

theorem environment_vars_keys_nodup (sf : StateMachine) (cfg : PyVal) (w : Option Int)
    (fj : Option Bool) (st ft : Option Topic) :
    ((LaunchEMRConfigLambda.environment_vars sf cfg w fj st ft).keys).Nodup := by
  cases st <;> cases ft <;>
    simp [LaunchEMRConfigLambda.environment_vars, PyDict.set, PyDict.keys]

theorem environment_vars_get_sfn_arn (sf : StateMachine) (cfg : PyVal) (w : Option Int)
    (fj : Option Bool) (st ft : Option Topic) :
    (LaunchEMRConfigLambda.environment_vars sf cfg w fj st ft).get "DEFAULT_STEP_FUNCTION_ARN"
      = some sf.state_machine_arn := by
  cases st <;> cases ft <;> rfl

theorem environment_vars_get_cluster_config (sf : StateMachine) (cfg : PyVal) (w : Option Int)
    (fj : Option Bool) (st ft : Option Topic) :
    (LaunchEMRConfigLambda.environment_vars sf cfg w fj st ft).get "DEFAULT_CLUSTER_CONFIG"
      = some (jsonDumps cfg) := by
  cases st <;> cases ft <;> rfl

theorem environment_vars_get_wait_time (sf : StateMachine) (cfg : PyVal) (w : Option Int)
    (fj : Option Bool) (st ft : Option Topic) :
    (LaunchEMRConfigLambda.environment_vars sf cfg w fj st ft).get "DEFAULT_STEP_FUNCTION_WAIT_TIME"
      = some (pyStrInt w) := by
  cases st <;> cases ft <;> rfl

theorem environment_vars_get_fail_flag (sf : StateMachine) (cfg : PyVal) (w : Option Int)
    (fj : Option Bool) (st ft : Option Topic) :
    (LaunchEMRConfigLambda.environment_vars sf cfg w fj st ft).get "DEFAULT_FAIL_IF_JOB_RUNNING"
      = some (pyStrBool fj) := by
  cases st <;> cases ft <;> rfl

theorem environment_vars_get_success (sf : StateMachine) (cfg : PyVal) (w : Option Int)
    (fj : Option Bool) (st ft : Option Topic) :
    (LaunchEMRConfigLambda.environment_vars sf cfg w fj st ft).get "DEFAULT_SUCCESS_TOPIC_ARN"
      = Option.map Topic.topic_arn st := by
  cases st <;> cases ft <;> rfl

theorem environment_vars_get_failure (sf : StateMachine) (cfg : PyVal) (w : Option Int)
    (fj : Option Bool) (st ft : Option Topic) :
    (LaunchEMRConfigLambda.environment_vars sf cfg w fj st ft).get "DEFAULT_FAILURE_TOPIC_ARN"
      = Option.map Topic.topic_arn ft := by
  cases st <;> cases ft <;> rfl

theorem environment_vars_get_bare_success (sf : StateMachine) (cfg : PyVal) (w : Option Int)
    (fj : Option Bool) (st ft : Option Topic) :
    (LaunchEMRConfigLambda.environment_vars sf cfg w fj st ft).get "SUCCESS_TOPIC_ARN"
      = Option.none := by
  cases st <;> cases ft <;> rfl

theorem init_environment_get_of_some (scope : Construct) (id : String)
    (props : FunctionProps) (sf : StateMachine) (cfg : PyVal) (w : Option Int)
    (fj : Option Bool) (st ft : Option Topic) (k v : String)
    (h : (LaunchEMRConfigLambda.environment_vars sf cfg w fj st ft).get k = some v) :
    ((LaunchEMRConfigLambda.init scope id props sf cfg w fj st ft).environment).get k
      = some v :=
  PyDict.merge_get_of_some _ _ k v (environment_vars_keys_nodup sf cfg w fj st ft) h

theorem init_environment_get_of_none (scope : Construct) (id : String)
    (props : FunctionProps) (sf : StateMachine) (cfg : PyVal) (w : Option Int)
    (fj : Option Bool) (st ft : Option Topic) (k : String)
    (h : (LaunchEMRConfigLambda.environment_vars sf cfg w fj st ft).get k = Option.none) :
    ((LaunchEMRConfigLambda.init scope id props sf cfg w fj st ft).environment).get k
      = (props.environment.getD []).get k :=
  PyDict.merge_get_of_none _ _ k h

theorem EmrCode.bind_scope_bucket (c : EmrCode) (scope : Construct) :
    ((c.bind_scope scope).self).deployment_bucket = c.deployment_bucket := by
  cases h : c.bucket_deployment <;> simp [EmrCode.bind_scope, h]

theorem EmrCode.bind_scope_pref (c : EmrCode) (scope : Construct) :
    ((c.bind_scope scope).self).deployment_pref = c.deployment_pref := by
  cases h : c.bucket_deployment <;> simp [EmrCode.bind_scope, h]

theorem EmrCode.bindAll_bucket (scopes : List Construct) :
    ∀ c : EmrCode, ((c.bindAll scopes).1).deployment_bucket = c.deployment_bucket := by
  induction scopes with
  | nil => intro c; rfl
  | cons s rest ih =>
      intro c
      simp only [EmrCode.bindAll]
      rw [ih]
      exact EmrCode.bind_scope_bucket c s

theorem EmrCode.bindAll_pref (scopes : List Construct) :
    ∀ c : EmrCode, ((c.bindAll scopes).1).deployment_pref = c.deployment_pref := by
  induction scopes with
  | nil => intro c; rfl
  | cons s rest ih =>
      intro c
      simp only [EmrCode.bindAll]
      rw [ih]
      exact EmrCode.bind_scope_pref c s

theorem EmrCode.bindAll_s3_path (scopes : List Construct) (c : EmrCode) :
    ((c.bindAll scopes).1).s3_path = c.s3_path := by
  simp [EmrCode.s3_path, EmrCode.bindAll_bucket, EmrCode.bindAll_pref]

/-! ### The claims -/

/-- Claim C1: an `EmrCode` instance creates its `BucketDeployment` resource
at most once: none at construction (`_bucket_deployment` starts out unset),
exactly one on the first `bind_scope` call, and none on any later call,
whatever scopes the calls pass. -/
theorem C1_emr_code_deployment_created_at_most_once
    (props : BucketDeploymentProps) (id : Option String) (scopes : List Construct) :
    (EmrCode.init props id).bucket_deployment = Option.none
  ∧ ((EmrCode.init props id).bindAll scopes).2 = min 1 scopes.length := by
  refine ⟨rfl, ?_⟩
  cases scopes with
  | nil => rfl
  | cons s rest =>
      simp only [EmrCode.bindAll]
      rw [EmrCode.bindAll_snd_of_isSome rest _ (EmrCode.bind_scope_isSome _ s)]
      simp [EmrCode.init, EmrCode.bind_scope]

/-- Claim C3: `StepFunctionLambdas` grants each of its three Lambda
functions exactly the fixed IAM allow-action lists of the source. -/
theorem C3_step_function_lambda_policies (scope : Construct) (id : String) :
    (StepFunctionLambdas.init scope id).run_job_flow.initial_policy
      = [{ effect := Effect.ALLOW
           actions :=
             ["elasticmapreduce:RunJobFlow",
              "elasticmapreduce:ListClusters",
              "elasticmapreduce:ListSteps"]
           resources := ["*"] }]
  ∧ (StepFunctionLambdas.init scope id).add_job_flow_steps.initial_policy
      = [{ effect := Effect.ALLOW
           actions := ["elasticmapreduce:AddJobFlowSteps"]
           resources := ["*"] }]
  ∧ (StepFunctionLambdas.init scope id).check_step_status.initial_policy
      = [{ effect := Effect.ALLOW
           actions :=
             ["elasticmapreduce:DescribeCluster",
              "elasticmapreduce:DescribeStep",
              "cloudwatch:PutMetricData"]
           resources := ["*"] }] :=
  ⟨rfl, rfl, rfl⟩

/-- Claim C4: `EmrStep.bind_scope` returns exactly the nested
`HadoopJarStep` mapping, with `Args`/`Properties` defaulting to the empty
list when omitted or `None`, and binds the optional code deployment
first. -/
theorem C4_emr_step_bind_shape (st : EmrStep) (scope : Construct) :
    (st.bind_scope scope).result =
      PyVal.dict
        [("Name", PyVal.str st.name),
         ("ActionOnFailure", PyVal.str st.action_on_failure.name),
         ("HadoopJarStep",
          PyVal.dict
            [("Jar", PyVal.str st.jar),
             ("MainClass", pyOptStr st.main_class),
             ("Args", PyVal.list ((st.args.getD []).map PyVal.str)),
             ("Properties", PyVal.list (st.properties.getD []))])]
  ∧ ∀ c : EmrCode, st.code = some c →
      (st.bind_scope scope).created = (c.bind_scope scope).created
      ∧ ((st.bind_scope scope).self).code = some ((c.bind_scope scope).self) := by
  constructor
  · simp [EmrStep.bind_scope, pyListOrEmpty_eq_getD]
  · intro c hc
    constructor <;> simp [EmrStep.bind_scope, hc]

/-- Claim C4 witness: a step carrying a code deployment propagates the
code's resource creation. -/
theorem C4_emr_step_bind_shape_witness :
    ((EmrStep.mk "step" "job.jar" Option.none Option.none StepFailureAction.CONTINUE
        Option.none (some (EmrCode.init ⟨[⟨"dir"⟩], ⟨"bkt"⟩, "pfx"⟩ Option.none))).bind_scope
        ⟨"sc"⟩).created
      = ((EmrCode.init ⟨[⟨"dir"⟩], ⟨"bkt"⟩, "pfx"⟩ Option.none).bind_scope ⟨"sc"⟩).created :=
  ((C4_emr_step_bind_shape
      (EmrStep.mk "step" "job.jar" Option.none Option.none StepFailureAction.CONTINUE
        Option.none (some (EmrCode.init ⟨[⟨"dir"⟩], ⟨"bkt"⟩, "pfx"⟩ Option.none)))
      ⟨"sc"⟩).2
    (EmrCode.init ⟨[⟨"dir"⟩], ⟨"bkt"⟩, "pfx"⟩ Option.none) rfl).1

/-- Claim C5: `EmrBootstrapAction.bind_scope` returns exactly the nested
`ScriptBootstrapAction` mapping, with `Args` defaulting to the empty list
when omitted or `None`, and binds the optional code deployment first. -/
theorem C5_emr_bootstrap_action_bind_shape (a : EmrBootstrapAction) (scope : Construct) :
    (a.bind_scope scope).result =
      PyVal.dict
        [("Name", PyVal.str a.name),
         ("ScriptBootstrapAction",
          PyVal.dict
            [("Path", PyVal.str a.path),
             ("Args", PyVal.list ((a.args.getD []).map PyVal.str))])]
  ∧ ∀ c : EmrCode, a.code = some c →
      (a.bind_scope scope).created = (c.bind_scope scope).created
      ∧ ((a.bind_scope scope).self).code = some ((c.bind_scope scope).self) := by
  constructor
  · simp [EmrBootstrapAction.bind_scope, pyListOrEmpty_eq_getD]
  · intro c hc
    constructor <;> simp [EmrBootstrapAction.bind_scope, hc]

/-- Claim C5 witness: a bootstrap action carrying a code deployment
propagates the code's resource creation. -/
theorem C5_emr_bootstrap_action_bind_shape_witness :
    ((EmrBootstrapAction.mk "ba" "s3://bkt/script.sh" Option.none
        (some (EmrCode.init ⟨[⟨"dir"⟩], ⟨"bkt"⟩, "pfx"⟩ Option.none))).bind_scope
        ⟨"sc"⟩).created
      = ((EmrCode.init ⟨[⟨"dir"⟩], ⟨"bkt"⟩, "pfx"⟩ Option.none).bind_scope ⟨"sc"⟩).created :=
  ((C5_emr_bootstrap_action_bind_shape
      (EmrBootstrapAction.mk "ba" "s3://bkt/script.sh" Option.none
        (some (EmrCode.init ⟨[⟨"dir"⟩], ⟨"bkt"⟩, "pfx"⟩ Option.none)))
      ⟨"sc"⟩).2
    (EmrCode.init ⟨[⟨"dir"⟩], ⟨"bkt"⟩, "pfx"⟩ Option.none) rfl).1

/-- Claim C6: for an `EmrCode` built by `__init__` (after any number of
`bind_scope` calls), both the `s3_path` property and the `S3Path` entry of
the returned mapping equal `s3://` + bucket name + `/` + key prefix, taken
from the deployment props. -/
theorem C6_s3_path_uri (props : BucketDeploymentProps) (id : Option String)
    (scopes : List Construct) (scope : Construct) :
    (((EmrCode.init props id).bindAll scopes).1).s3_path
      = "s3://" ++ props.destination_bucket.bucket_name ++ "/" ++ props.destination_key_pref
  ∧ ((((EmrCode.init props id).bindAll scopes).1).bind_scope scope).result
      = PyVal.dict
          [("S3Path",
            PyVal.str
              ("s3://" ++ props.destination_bucket.bucket_name ++ "/"
                ++ props.destination_key_pref))] := by
  have hp : (((EmrCode.init props id).bindAll scopes).1).s3_path
      = "s3://" ++ props.destination_bucket.bucket_name ++ "/" ++ props.destination_key_pref := by
    rw [EmrCode.bindAll_s3_path]
    rfl
  refine ⟨hp, ?_⟩
  rw [EmrCode.bind_scope_result, hp]

/-- Claim C7: `EmrBootstrapAction` and `EmrStep` behave as pure value
objects: `bind_scope` never changes any of their attributes (the nested
`EmrCode`, whose reference is kept unchanged, mutates only its private
`_bucket_deployment` memo cell, captured by `EmrCode.value_fields`), and
repeated calls return equal mappings. -/
theorem C7_pure_value_objects :
    (∀ (a : EmrBootstrapAction) (scope : Construct),
        ((a.bind_scope scope).self).name = a.name
      ∧ ((a.bind_scope scope).self).path = a.path
      ∧ ((a.bind_scope scope).self).args = a.args
      ∧ Option.map EmrCode.value_fields ((a.bind_scope scope).self).code
          = Option.map EmrCode.value_fields a.code
      ∧ ∀ scope' : Construct,
          (((a.bind_scope scope).self).bind_scope scope').result
            = (a.bind_scope scope).result)
  ∧ (∀ (st : EmrStep) (scope : Construct),
        ((st.bind_scope scope).self).name = st.name
      ∧ ((st.bind_scope scope).self).jar = st.jar
      ∧ ((st.bind_scope scope).self).main_class = st.main_class
      ∧ ((st.bind_scope scope).self).args = st.args
      ∧ ((st.bind_scope scope).self).action_on_failure = st.action_on_failure
      ∧ ((st.bind_scope scope).self).properties = st.properties
      ∧ Option.map EmrCode.value_fields ((st.bind_scope scope).self).code
          = Option.map EmrCode.value_fields st.code
      ∧ ∀ scope' : Construct,
          (((st.bind_scope scope).self).bind_scope scope').result
            = (st.bind_scope scope).result) := by
  constructor
  · intro a scope
    cases hc : a.code <;>
      simp [EmrBootstrapAction.bind_scope, hc, EmrCode.bind_scope_value_fields]
  · intro st scope
    cases hc : st.code <;>
      simp [EmrStep.bind_scope, hc, EmrCode.bind_scope_value_fields]

/-- Claim C8: `EmrCode.bind_scope` always returns
`{'S3Path': self.s3_path}` whatever the scope and however many calls
precede it, and never changes `s3_path`. -/
theorem C8_emr_code_bind_idempotent (c : EmrCode) (scope scope' : Construct)
    (scopes : List Construct) :
    (c.bind_scope scope).result = PyVal.dict [("S3Path", PyVal.str c.s3_path)]
  ∧ ((c.bind_scope scope).self).s3_path = c.s3_path
  ∧ (((c.bindAll scopes).1).bind_scope scope').result = (c.bind_scope scope).result := by
  refine ⟨EmrCode.bind_scope_result c scope, EmrCode.bind_scope_s3_path c scope, ?_⟩
  rw [EmrCode.bind_scope_result, EmrCode.bind_scope_result, EmrCode.bindAll_s3_path]

/-- Claim C10: the `ActionOnFailure` entry is the enum member's `.name`,
which coincides with its declared string `.value`, is always one of the
four member strings, and defaults to `CONTINUE`. -/
theorem C10_action_on_failure_entry (st : EmrStep) (scope : Construct) :
    PyVal.getKey ((st.bind_scope scope).result) "ActionOnFailure"
      = some (PyVal.str st.action_on_failure.name)
  ∧ st.action_on_failure.name = st.action_on_failure.value
  ∧ st.action_on_failure.name ∈
      ["TERMINATE_JOB_FLOW", "TERMINATE_CLUSTER", "CANCEL_AND_WAIT", "CONTINUE"]
  ∧ EmrStep.default_action_on_failure.name = "CONTINUE" := by
  refine ⟨rfl, ?_, ?_, rfl⟩
  · cases st.action_on_failure <;> rfl
  · cases st.action_on_failure <;> decide

/-- Claim C2 counterexample: a `LaunchEMRConfigLambda` constructed with a
success topic supplied has no environment key `SUCCESS_TOPIC_ARN` (nor
`FAILURE_TOPIC_ARN`); the code writes the key `DEFAULT_SUCCESS_TOPIC_ARN`
instead. -/
theorem C2_bare_topic_key_counterexample :
    ((LaunchEMRConfigLambda.init ⟨"app"⟩ "launch" ⟨Option.none⟩ ⟨"arn:sm"⟩ PyVal.none
        (some 60) (some false) (some ⟨"arn:success"⟩) Option.none).environment).get
      "SUCCESS_TOPIC_ARN" = Option.none
  ∧ ((LaunchEMRConfigLambda.init ⟨"app"⟩ "launch" ⟨Option.none⟩ ⟨"arn:sm"⟩ PyVal.none
        (some 60) (some false) (some ⟨"arn:success"⟩) Option.none).environment).get
      "DEFAULT_SUCCESS_TOPIC_ARN" = some "arn:success" :=
  ⟨rfl, rfl⟩

/-- Claim C2 (amended): the resulting function's environment always holds
the four base keys with their constructor-derived values, and holds
`DEFAULT_SUCCESS_TOPIC_ARN` / `DEFAULT_FAILURE_TOPIC_ARN` (mapped to the
topic's ARN) exactly when the corresponding topic argument is supplied,
provided the caller's props environment does not itself define those two
keys. -/
theorem C2_launch_lambda_environment_assembly (scope : Construct) (id : String)
    (props : FunctionProps) (sf : StateMachine) (cfg : PyVal) (w : Option Int)
    (fj : Option Bool) (st ft : Option Topic)
    (hs : (props.environment.getD []).get "DEFAULT_SUCCESS_TOPIC_ARN" = Option.none)
    (hf : (props.environment.getD []).get "DEFAULT_FAILURE_TOPIC_ARN" = Option.none) :
    ((LaunchEMRConfigLambda.init scope id props sf cfg w fj st ft).environment).get
        "DEFAULT_STEP_FUNCTION_ARN" = some sf.state_machine_arn
  ∧ ((LaunchEMRConfigLambda.init scope id props sf cfg w fj st ft).environment).get
        "DEFAULT_CLUSTER_CONFIG" = some (jsonDumps cfg)
  ∧ ((LaunchEMRConfigLambda.init scope id props sf cfg w fj st ft).environment).get
        "DEFAULT_STEP_FUNCTION_WAIT_TIME" = some (pyStrInt w)
  ∧ ((LaunchEMRConfigLambda.init scope id props sf cfg w fj st ft).environment).get
        "DEFAULT_FAIL_IF_JOB_RUNNING" = some (pyStrBool fj)
  ∧ ((LaunchEMRConfigLambda.init scope id props sf cfg w fj st ft).environment).get
        "DEFAULT_SUCCESS_TOPIC_ARN" = Option.map Topic.topic_arn st
  ∧ ((LaunchEMRConfigLambda.init scope id props sf cfg w fj st ft).environment).get
        "DEFAULT_FAILURE_TOPIC_ARN" = Option.map Topic.topic_arn ft := by
  refine ⟨init_environment_get_of_some scope id props sf cfg w fj st ft _ _
            (environment_vars_get_sfn_arn sf cfg w fj st ft),
          init_environment_get_of_some scope id props sf cfg w fj st ft _ _
            (environment_vars_get_cluster_config sf cfg w fj st ft),
          init_environment_get_of_some scope id props sf cfg w fj st ft _ _
            (environment_vars_get_wait_time sf cfg w fj st ft),
          init_environment_get_of_some scope id props sf cfg w fj st ft _ _
            (environment_vars_get_fail_flag sf cfg w fj st ft),
          ?_, ?_⟩
  · cases hst : st with
    | some t =>
        exact init_environment_get_of_some scope id props sf cfg w fj _ ft _ _
          (by rw [environment_vars_get_success]; rfl)
    | none =>
        rw [init_environment_get_of_none scope id props sf cfg w fj _ ft _
              (by rw [environment_vars_get_success]; rfl)]
        simpa using hs
  · cases hft : ft with
    | some t =>
        exact init_environment_get_of_some scope id props sf cfg w fj st _ _ _
          (by rw [environment_vars_get_failure]; rfl)
    | none =>
        rw [init_environment_get_of_none scope id props sf cfg w fj st _ _
              (by rw [environment_vars_get_failure]; rfl)]
        simpa using hf

/-- Claim C2 witness: a concrete construction with a success topic but no
failure topic, over props that already carry an unrelated environment
key. -/
theorem C2_launch_lambda_environment_assembly_witness :
    ((LaunchEMRConfigLambda.init ⟨"app"⟩ "launch" ⟨some [("FOO", "bar")]⟩ ⟨"arn:sm"⟩
        (PyVal.dict []) (some 60) (some false) (some ⟨"arn:ok"⟩) Option.none).environment).get
        "DEFAULT_STEP_FUNCTION_ARN" = some "arn:sm"
  ∧ ((LaunchEMRConfigLambda.init ⟨"app"⟩ "launch" ⟨some [("FOO", "bar")]⟩ ⟨"arn:sm"⟩
        (PyVal.dict []) (some 60) (some false) (some ⟨"arn:ok"⟩) Option.none).environment).get
        "DEFAULT_CLUSTER_CONFIG" = some (jsonDumps (PyVal.dict []))
  ∧ ((LaunchEMRConfigLambda.init ⟨"app"⟩ "launch" ⟨some [("FOO", "bar")]⟩ ⟨"arn:sm"⟩
        (PyVal.dict []) (some 60) (some false) (some ⟨"arn:ok"⟩) Option.none).environment).get
        "DEFAULT_STEP_FUNCTION_WAIT_TIME" = some (pyStrInt (some 60))
  ∧ ((LaunchEMRConfigLambda.init ⟨"app"⟩ "launch" ⟨some [("FOO", "bar")]⟩ ⟨"arn:sm"⟩
        (PyVal.dict []) (some 60) (some false) (some ⟨"arn:ok"⟩) Option.none).environment).get
        "DEFAULT_FAIL_IF_JOB_RUNNING" = some (pyStrBool (some false))
  ∧ ((LaunchEMRConfigLambda.init ⟨"app"⟩ "launch" ⟨some [("FOO", "bar")]⟩ ⟨"arn:sm"⟩
        (PyVal.dict []) (some 60) (some false) (some ⟨"arn:ok"⟩) Option.none).environment).get
        "DEFAULT_SUCCESS_TOPIC_ARN" = some "arn:ok"
  ∧ ((LaunchEMRConfigLambda.init ⟨"app"⟩ "launch" ⟨some [("FOO", "bar")]⟩ ⟨"arn:sm"⟩
        (PyVal.dict []) (some 60) (some false) (some ⟨"arn:ok"⟩) Option.none).environment).get
        "DEFAULT_FAILURE_TOPIC_ARN" = Option.none :=
  C2_launch_lambda_environment_assembly ⟨"app"⟩ "launch" ⟨some [("FOO", "bar")]⟩ ⟨"arn:sm"⟩
    (PyVal.dict []) (some 60) (some false) (some ⟨"arn:ok"⟩) Option.none rfl rfl

/-- Claim C9: in the merge `dict(props_environment, **constructor_environment)`,
every constructor-derived key overrides a same-named props key, and every
props key not among the constructor-derived keys keeps its props value. -/
theorem C9_environment_merge_override_and_preserve (scope : Construct) (id : String)
    (props : FunctionProps) (sf : StateMachine) (cfg : PyVal) (w : Option Int)
    (fj : Option Bool) (st ft : Option Topic) (k : String) :
    (∀ v : String,
        (LaunchEMRConfigLambda.environment_vars sf cfg w fj st ft).get k = some v →
        ((LaunchEMRConfigLambda.init scope id props sf cfg w fj st ft).environment).get k
          = some v)
  ∧ ((LaunchEMRConfigLambda.environment_vars sf cfg w fj st ft).get k = Option.none →
        ((LaunchEMRConfigLambda.init scope id props sf cfg w fj st ft).environment).get k
          = (props.environment.getD []).get k) :=
  ⟨fun v h => init_environment_get_of_some scope id props sf cfg w fj st ft k v h,
   fun h => init_environment_get_of_none scope id props sf cfg w fj st ft k h⟩

/-- Claim C9 witness: over concrete props the constructor value overrides
the stale `DEFAULT_CLUSTER_CONFIG` entry while the unrelated `KEEP` entry
survives unchanged. -/
theorem C9_environment_merge_witness :
    ((LaunchEMRConfigLambda.init ⟨"app"⟩ "launch"
        ⟨some [("KEEP", "kept"), ("DEFAULT_CLUSTER_CONFIG", "stale")]⟩ ⟨"arn:sm"⟩
        (PyVal.dict []) (some 60) (some false) Option.none Option.none).environment).get
        "DEFAULT_CLUSTER_CONFIG" = some (jsonDumps (PyVal.dict []))
  ∧ ((LaunchEMRConfigLambda.init ⟨"app"⟩ "launch"
        ⟨some [("KEEP", "kept"), ("DEFAULT_CLUSTER_CONFIG", "stale")]⟩ ⟨"arn:sm"⟩
        (PyVal.dict []) (some 60) (some false) Option.none Option.none).environment).get
        "KEEP" = some "kept" :=
  ⟨(C9_environment_merge_override_and_preserve ⟨"app"⟩ "launch"
      ⟨some [("KEEP", "kept"), ("DEFAULT_CLUSTER_CONFIG", "stale")]⟩ ⟨"arn:sm"⟩
      (PyVal.dict []) (some 60) (some false) Option.none Option.none
      "DEFAULT_CLUSTER_CONFIG").1 (jsonDumps (PyVal.dict [])) rfl,
   ((C9_environment_merge_override_and_preserve ⟨"app"⟩ "launch"
      ⟨some [("KEEP", "kept"), ("DEFAULT_CLUSTER_CONFIG", "stale")]⟩ ⟨"arn:sm"⟩
      (PyVal.dict []) (some 60) (some false) Option.none Option.none
      "KEEP").2 rfl).trans rfl⟩
